import Mathlib

/-!
Verification of the recurly XML codec and webhook dispatcher.

The Go sources embedded here are subscriptions.go, transactions.go, the
webhooks package (constants, notification variants and Parse) and the
NullInt wrapper.  Wire payloads are modelled as already-tokenized XML
element trees; Go errors are modelled as Option String (none is the nil
error), and fallible decoders return Except String.
-/

/-! ## XML wire model -/

/-- XmlAttr is one attribute of a wire element, as a name and value pair. -/
structure XmlAttr where
  name : String
  val : String

/-- XmlNode is a well-formed XML fragment: an element with a tag name,
attributes and ordered children, or raw character data. -/
inductive XmlNode where
  | elem (name : String) (attrs : List XmlAttr) (children : List XmlNode)
  | text (s : String)

/-- escapeXml models the escaping Go applies to character data on encode. -/
def escapeXml (s : String) : String :=
  String.join (s.data.map fun c =>
    if c = '&' then "&amp;"
    else if c = '<' then "&lt;"
    else if c = '>' then "&gt;"
    else String.singleton c)

/-- renderAttr renders one attribute as it appears inside a start tag. -/
def renderAttr (a : XmlAttr) : String :=
  " " ++ a.name ++ "=\x22" ++ escapeXml a.val ++ "\x22"

mutual

/-- render produces the byte output the Go encoder writes for a node.  Go
never writes self-closing tags, so an element with no children renders as
an adjacent start and end tag. -/
def XmlNode.render : XmlNode → String
  | .text s => escapeXml s
  | .elem n attrs cs =>
      "<" ++ n ++ String.join (attrs.map renderAttr) ++ ">" ++
        XmlNode.renderList cs ++ "</" ++ n ++ ">"

/-- renderList renders a list of sibling nodes in order. -/
def XmlNode.renderList : List XmlNode → String
  | [] => ""
  | c :: cs => c.render ++ XmlNode.renderList cs

end

mutual

/-- allText collects the character data contained in a node, at any depth,
matching how Go fills a string field from an element. -/
def XmlNode.allText : XmlNode → String
  | .text s => s
  | .elem _ _ cs => XmlNode.allTextList cs

/-- allTextList collects character data of a list of nodes in order. -/
def XmlNode.allTextList : List XmlNode → String
  | [] => ""
  | c :: cs => c.allText ++ XmlNode.allTextList cs

end

/-- localName is the tag name of the outer element; Go only ever hands a
document whose root is an element to the decoder. -/
def XmlNode.localName : XmlNode → String
  | .elem n _ _ => n
  | .text _ => ""

/-- innerText is the character data directly contained in the children of
an element node. -/
def XmlNode.innerText : XmlNode → String
  | .elem _ _ cs => XmlNode.allTextList cs
  | .text s => s

/-- attrValue looks up an attribute by name, empty when absent. -/
def XmlNode.attrValue (n : XmlNode) (key : String) : String :=
  match n with
  | .elem _ attrs _ => ((attrs.find? fun a => a.name = key).map XmlAttr.val).getD ""
  | .text _ => ""

/-- nodeName is the tag name of an element node, none for character
data. -/
def XmlNode.nodeName : XmlNode → Option String
  | .elem m _ _ => some m
  | .text _ => none

/-- childNames lists the tag names of the element children of a node, in
order; character data children contribute nothing. -/
def XmlNode.childNames : XmlNode → List String
  | .elem _ _ cs => cs.filterMap XmlNode.nodeName
  | .text _ => []

/-- textElem builds the element a Go encoder writes for a scalar field:
a start tag, the textual value, and an end tag. -/
def textElem (name content : String) : XmlNode :=
  .elem name [] [.text content]

/-- emitIf models the omitempty rule: the element is produced only when
the field is meaningfully set. -/
def emitIf (cond : Bool) (node : XmlNode) : List XmlNode :=
  if cond then [node] else []

/-! ## Go scalar text conversions -/

/-- digitsToNat folds decimal digit characters into a Nat; none if the
list is empty or holds a non-digit. -/
def digitsToNat (cs : List Char) : Option Nat :=
  match cs with
  | [] => none
  | _ =>
    cs.foldl (fun acc c =>
      match acc with
      | none => none
      | some n => if c.isDigit then some (n * 10 + (c.toNat - 48)) else none)
      (some 0)

/-- isGoSpace recognizes the whitespace trimmed from element text before
a scalar conversion. -/
def isGoSpace (c : Char) : Bool :=
  c = ' ' ∨ c = '\t' ∨ c = '\n' ∨ c = '\r'

/-- goTrim drops leading and trailing whitespace from a character list. -/
def goTrim (cs : List Char) : List Char :=
  ((cs.dropWhile isGoSpace).reverse.dropWhile isGoSpace).reverse

/-- parseGoInt models the integer conversion Go applies to element text
(strconv.ParseInt base 10 on the space-trimmed text, 64-bit): an optional
sign, one or more decimal digits, and an int64 range check. -/
def parseGoInt (s : String) : Option Int :=
  let (neg, digits) :=
    match goTrim s.data with
    | '-' :: rest => (true, rest)
    | '+' :: rest => (false, rest)
    | cs => (false, cs)
  match digitsToNat digits with
  | none => none
  | some m =>
    let v : Int := if neg then -(m : Int) else (m : Int)
    if -(2 ^ 63) ≤ v ∧ v < 2 ^ 63 then some v else none

/-- parseGoBool models strconv.ParseBool on the space-trimmed text. -/
def parseGoBool (s : String) : Option Bool :=
  let t := String.mk (goTrim s.data)
  if t = "1" ∨ t = "t" ∨ t = "T" ∨ t = "TRUE" ∨ t = "true" ∨ t = "True" then some true
  else if t = "0" ∨ t = "f" ∨ t = "F" ∨ t = "FALSE" ∨ t = "false" ∨ t = "False" then some false
  else none

/-- formatGoBool renders a bool the way the Go encoder does. -/
def formatGoBool (b : Bool) : String :=
  if b then "true" else "false"

/-- GoTime models a time.Time instant as seconds since the Unix epoch;
the Before method is strict order on instants. -/
abbrev GoTime := Int

/-- GoTime.Before models time.Before: strictly earlier. -/
def GoTime.Before (a b : GoTime) : Prop := (a : Int) < b

/-- pad2 renders a number as two decimal digits. -/
def pad2 (n : Nat) : String :=
  if n < 10 then "0" ++ toString n else toString n

/-- pad4 renders a year as at least four decimal digits. -/
def pad4 (n : Nat) : String :=
  if n < 10 then "000" ++ toString n
  else if n < 100 then "00" ++ toString n
  else if n < 1000 then "0" ++ toString n
  else toString n

/-- civilFromDays converts days since the epoch to a calendar date using
the standard proleptic-Gregorian algorithm. -/
def civilFromDays (z0 : Int) : Int × Nat × Nat :=
  let z := z0 + 719468
  let era := z.fdiv 146097
  let doe := (z - era * 146097).toNat
  let yoe := (doe - doe / 1460 + doe / 36524 - doe / 146096) / 365
  let y : Int := (yoe : Int) + era * 400
  let doy := doe - (365 * yoe + yoe / 4 - yoe / 100)
  let mp := (5 * doy + 2) / 153
  let d := doy - (153 * mp + 2) / 5 + 1
  let m : Nat := if mp < 10 then mp + 3 else mp - 9
  (if m ≤ 2 then y + 1 else y, m, d)

/-- daysFromCivil converts a calendar date to days since the epoch. -/
def daysFromCivil (y0 : Int) (m d : Nat) : Int :=
  let y := if m ≤ 2 then y0 - 1 else y0
  let era := y.fdiv 400
  let yoe := (y - era * 400).toNat
  let mp := if m > 2 then m - 3 else m + 9
  let doy := (153 * mp + 2) / 5 + d - 1
  let doe := yoe * 365 + yoe / 4 - yoe / 100 + doy
  era * 146097 + (doe : Int) - 719468

/-- formatDateTime renders an instant in the RFC3339 UTC shape the wire
format uses, such as 2015-06-03T13:42:23Z. -/
def formatDateTime (t : GoTime) : String :=
  let days := (t : Int).fdiv 86400
  let sod := ((t : Int) - days * 86400).toNat
  let (y, m, d) := civilFromDays days
  pad4 y.toNat ++ "-" ++ pad2 m ++ "-" ++ pad2 d ++ "T" ++
    pad2 (sod / 3600) ++ ":" ++ pad2 (sod % 3600 / 60) ++ ":" ++ pad2 (sod % 60) ++ "Z"

/-- digitVal reads one decimal digit character. -/
def digitVal (c : Char) : Option Nat :=
  if c.isDigit then some (c.toNat - 48) else none

/-- parseDateTime reads the RFC3339 UTC datetime shape used on the wire
back into an instant; any other shape fails. -/
def parseDateTime (s : String) : Option GoTime :=
  match s.data with
  | y1 :: y2 :: y3 :: y4 :: '-' :: m1 :: m2 :: '-' :: d1 :: d2 :: 'T' ::
      h1 :: h2 :: ':' :: i1 :: i2 :: ':' :: s1 :: s2 :: rest =>
    if rest = ['Z'] then
      match digitVal y1, digitVal y2, digitVal y3, digitVal y4, digitVal m1, digitVal m2,
            digitVal d1, digitVal d2, digitVal h1, digitVal h2, digitVal i1, digitVal i2,
            digitVal s1, digitVal s2 with
      | some a, some b, some c, some d, some e, some f, some g, some h,
        some p, some q, some r, some t, some u, some v =>
        let year : Int := (a * 1000 + b * 100 + c * 10 + d : Nat)
        let mon := e * 10 + f
        let day := g * 10 + h
        let hh := p * 10 + q
        let mi := r * 10 + t
        let ss := u * 10 + v
        if 1 ≤ mon ∧ mon ≤ 12 ∧ 1 ≤ day ∧ day ≤ 31 ∧ hh ≤ 23 ∧ mi ≤ 59 ∧ ss ≤ 59 then
          some ((daysFromCivil year mon day * 86400 + (hh * 3600 + mi * 60 + ss : Nat) : Int) : GoTime)
        else none
      | _, _, _, _, _, _, _, _, _, _, _, _, _, _ => none
    else none
  | _ => none

/-- GoFloat models a float64 field.  No claim computes with float values;
they only travel through record shapes. -/
abbrev GoFloat := Float

/-- parseGoFloat models the decimal text conversion for a float64 field:
sign, digits, optional fraction and exponent. -/
def parseGoFloat (s : String) : Option GoFloat :=
  let (neg, rest1) :=
    match goTrim s.data with
    | '-' :: r => (true, r)
    | '+' :: r => (false, r)
    | cs => (false, cs)
  let intDigits := rest1.takeWhile Char.isDigit
  let rest2 := rest1.dropWhile Char.isDigit
  let (fracDigits, rest3) :=
    match rest2 with
    | '.' :: r => (r.takeWhile Char.isDigit, r.dropWhile Char.isDigit)
    | r => ([], r)
  let (expVal, rest4) :=
    match rest3 with
    | 'e' :: r | 'E' :: r =>
      let (eneg, rr) :=
        match r with
        | '-' :: q => (true, q)
        | '+' :: q => (false, q)
        | q => (false, q)
      match digitsToNat (rr.takeWhile Char.isDigit) with
      | some e => (some (if eneg then -(e : Int) else (e : Int)), rr.dropWhile Char.isDigit)
      | none => (none, rr)
    | r => (some 0, r)
  if intDigits.isEmpty ∧ fracDigits.isEmpty then none
  else match expVal, rest4 with
    | some e, [] =>
      let mant := (digitsToNat (intDigits ++ fracDigits)).getD 0
      let scale : Int := e - fracDigits.length
      let base := Float.ofNat mant * Float.pow 10.0 (Float.ofInt scale)
      some (if neg then -base else base)
    | _, _ => none

/-- formatGoFloat renders a float64 field; an approximation of the Go
text form, never exercised by the claims. -/
def formatGoFloat (f : GoFloat) : String := toString (f : Float)

/-! ## Nullable scalar wrappers -/

/-- NullInt is used for properly handling int types that could be null
(source: NullInt). -/
structure NullInt where
  Int : Int
  Valid : Bool
deriving DecidableEq

/-- NewInt builds a new NullInt struct (source: NewInt). -/
def NewInt (i : Int) : NullInt :=
  { Int := i, Valid := true }

/-- NullInt.unmarshalXML embeds the NullInt UnmarshalXML method: it
decodes the element text as an int; on success it overwrites the receiver
with a valid value, and in every case it returns the nil error (the
decode error is checked but deliberately not propagated). -/
def NullInt.unmarshalXML (n : NullInt) (body : String) : NullInt × Option String :=
  match parseGoInt body with
  | some v => ({ Int := v, Valid := true }, none)
  | none => (n, none)

/-- NullInt.marshalXML embeds the NullInt MarshalXML method: it emits the
element, carrying the decimal text of the value, exactly when Valid is
true, and always returns the nil error. -/
def NullInt.marshalXML (n : NullInt) (start : String) : Option XmlNode × Option String :=
  (if n.Valid then some (textElem start (toString n.Int)) else none, none)

/-- NullBool is the nullable bool wrapper.  Modelled from the spec: the
type itself is declared outside the given sources; per the spec it pairs
a bool with a validity flag, encodes exactly when set, and its decoder
mirrors the NullInt pattern. -/
structure NullBool where
  Valid : Bool
  Bool : Bool
deriving DecidableEq

/-- NullBool.unmarshalXML decodes bool element text; well-formed text sets
the receiver.  Modelled from the spec: decode fails only on text that is
malformed for a bool. -/
def NullBool.unmarshalXML (n : NullBool) (body : String) : NullBool × Option String :=
  match parseGoBool body with
  | some b => ({ Valid := true, Bool := b }, none)
  | none => (n, some "invalid bool text")

/-- NullBool.marshalXML emits the element exactly when Valid is true.
Modelled from the spec selective-emission rule for nullable scalars. -/
def NullBool.marshalXML (n : NullBool) (start : String) : Option XmlNode × Option String :=
  (if n.Valid then some (textElem start (formatGoBool n.Bool)) else none, none)

/-- NullTime is the nullable timestamp wrapper.  Modelled from the spec:
declared outside the given sources; a pointer-like optional instant,
unset when the pointer is nil.  The sorting helper in transactions.go
dereferences the Time field directly. -/
structure NullTime where
  Time : Option GoTime
deriving DecidableEq

/-- NullTime.unmarshalXML decodes timestamp element text: empty text
leaves the receiver unset, well-formed text sets it, malformed text is a
type-mismatch error.  Modelled from the spec. -/
def NullTime.unmarshalXML (n : NullTime) (body : String) : NullTime × Option String :=
  if body = "" then (n, none)
  else match parseDateTime body with
    | some t => ({ Time := some t }, none)
    | none => (n, some "invalid datetime text")

/-- NullTime.marshalXML emits the element exactly when the instant is
set.  Modelled from the spec selective-emission rule. -/
def NullTime.marshalXML (n : NullTime) (start : String) : Option XmlNode × Option String :=
  (n.Time.map fun t => textElem start (formatDateTime t), none)

/-- hrefString resolves a reference element to a string.  Modelled from
the spec: inline text takes precedence; an empty body falls back to the
last path segment of the href attribute; neither present gives the empty
string. -/
def hrefString (node : XmlNode) : String :=
  let inline := node.innerText
  if inline ≠ "" then inline
  else
    let href := node.attrValue "href"
    if href = "" then ""
    else ((href.splitOn "/").filter (· ≠ "")).getLastD ""

/-- hrefInt resolves a reference element to an int via hrefString;
unparseable or absent identifiers resolve to the zero value.  Modelled
from the spec. -/
def hrefInt (node : XmlNode) : Int :=
  (parseGoInt (hrefString node)).getD 0

/-! ## Records of subscriptions.go -/

/-- NestedPlan mirrors the NestedPlan struct: plan_code and name, both
omitted when empty. -/
structure NestedPlan where
  Code : String
  Name : String
deriving DecidableEq

/-- NestedPlan.zero is the Go zero value. -/
def NestedPlan.zero : NestedPlan := { Code := "", Name := "" }

/-- NestedPlan.decodeStep folds one wire child into the record, matching
the default field-by-field decode of the tagged struct. -/
def NestedPlan.decodeStep (p : NestedPlan) : XmlNode → NestedPlan
  | .elem "plan_code" _ cs => { p with Code := XmlNode.allTextList cs }
  | .elem "name" _ cs => { p with Name := XmlNode.allTextList cs }
  | _ => p

/-- NestedPlan.unmarshalXML decodes a plan element; it has only string
fields, so it cannot fail. -/
def NestedPlan.unmarshalXML (node : XmlNode) : NestedPlan :=
  match node with
  | .elem _ _ cs => cs.foldl NestedPlan.decodeStep NestedPlan.zero
  | .text _ => NestedPlan.zero

/-- NestedPlan.marshalXML is the default tagged encode: both fields carry
omitempty. -/
def NestedPlan.marshalXML (name : String) (p : NestedPlan) : XmlNode :=
  .elem name [] (emitIf (p.Code != "") (textElem "plan_code" p.Code) ++
    emitIf (p.Name != "") (textElem "name" p.Name))

/-- SubscriptionAddOn mirrors the SubscriptionAddOn struct. -/
structure SubscriptionAddOn where
  «Type» : String
  Code : String
  UnitAmountInCents : Int
  Quantity : Int
deriving DecidableEq

/-- SubscriptionAddOn.zero is the Go zero value. -/
def SubscriptionAddOn.zero : SubscriptionAddOn :=
  { «Type» := "", Code := "", UnitAmountInCents := 0, Quantity := 0 }

/-- SubscriptionAddOn.decodeStep folds one wire child into the record;
the two int fields are type-checked conversions. -/
def SubscriptionAddOn.decodeStep (a : SubscriptionAddOn) :
    XmlNode → Except String SubscriptionAddOn
  | .elem "add_on_type" _ cs => .ok { a with «Type» := XmlNode.allTextList cs }
  | .elem "add_on_code" _ cs => .ok { a with Code := XmlNode.allTextList cs }
  | .elem "unit_amount_in_cents" _ cs =>
    match parseGoInt (XmlNode.allTextList cs) with
    | some v => .ok { a with UnitAmountInCents := v }
    | none => .error "subscription_add_on.unit_amount_in_cents: invalid int"
  | .elem "quantity" _ cs =>
    match parseGoInt (XmlNode.allTextList cs) with
    | some v => .ok { a with Quantity := v }
    | none => .error "subscription_add_on.quantity: invalid int"
  | _ => .ok a

/-- SubscriptionAddOn.unmarshalXML decodes one add-on element. -/
def SubscriptionAddOn.unmarshalXML (node : XmlNode) : Except String SubscriptionAddOn :=
  match node with
  | .elem _ _ cs => cs.foldlM SubscriptionAddOn.decodeStep SubscriptionAddOn.zero
  | .text _ => .ok SubscriptionAddOn.zero

/-- SubscriptionAddOn.marshalXML is the default tagged encode:
add_on_type and quantity carry omitempty, add_on_code and
unit_amount_in_cents do not. -/
def SubscriptionAddOn.marshalXML (a : SubscriptionAddOn) : XmlNode :=
  .elem "subscription_add_on" []
    (emitIf (a.«Type» != "") (textElem "add_on_type" a.«Type») ++
     [textElem "add_on_code" a.Code] ++
     [textElem "unit_amount_in_cents" (toString a.UnitAmountInCents)] ++
     emitIf (a.Quantity != 0) (textElem "quantity" (toString a.Quantity)))

/-- decodeAddOnList decodes the subscription_add_on children of a
subscription_add_ons wrapper, in wire order. -/
def decodeAddOnList (node : XmlNode) : Except String (List SubscriptionAddOn) :=
  match node with
  | .elem _ _ cs =>
    cs.foldlM (fun acc c =>
      match c with
      | .elem "subscription_add_on" _ _ =>
        (SubscriptionAddOn.unmarshalXML c).map fun a => acc ++ [a]
      | _ => .ok acc) []
  | .text _ => .ok []

/-- marshalAddOnsWrapper encodes a subscription_add_ons wrapper holding
one child per add-on, or nothing for an empty list. -/
def marshalAddOnsWrapper (l : List SubscriptionAddOn) : List XmlNode :=
  if l.isEmpty then []
  else [.elem "subscription_add_ons" [] (l.map SubscriptionAddOn.marshalXML)]

/-- PendingSubscription mirrors the PendingSubscription struct. -/
structure PendingSubscription where
  Plan : NestedPlan
  Quantity : Int
  Price : Int
  SubscriptionAddOns : List SubscriptionAddOn
deriving DecidableEq

/-- PendingSubscription.zero is the Go zero value. -/
def PendingSubscription.zero : PendingSubscription :=
  { Plan := NestedPlan.zero, Quantity := 0, Price := 0, SubscriptionAddOns := [] }

/-- PendingSubscription.decodeStep folds one wire child into the record. -/
def PendingSubscription.decodeStep (p : PendingSubscription) :
    XmlNode → Except String PendingSubscription
  | .elem "plan" _ cs => .ok { p with Plan := NestedPlan.unmarshalXML (.elem "plan" [] cs) }
  | .elem "quantity" _ cs =>
    match parseGoInt (XmlNode.allTextList cs) with
    | some v => .ok { p with Quantity := v }
    | none => .error "pending_subscription.quantity: invalid int"
  | .elem "unit_amount_in_cents" _ cs =>
    match parseGoInt (XmlNode.allTextList cs) with
    | some v => .ok { p with Price := v }
    | none => .error "pending_subscription.unit_amount_in_cents: invalid int"
  | .elem "subscription_add_ons" _ cs =>
    (decodeAddOnList (.elem "subscription_add_ons" [] cs)).map fun l =>
      { p with SubscriptionAddOns := l }
  | _ => .ok p

/-- PendingSubscription.unmarshalXML decodes a pending_subscription
element. -/
def PendingSubscription.unmarshalXML (node : XmlNode) : Except String PendingSubscription :=
  match node with
  | .elem _ _ cs => cs.foldlM PendingSubscription.decodeStep PendingSubscription.zero
  | .text _ => .ok PendingSubscription.zero

/-- PendingSubscription.marshalXML is the default tagged encode. -/
def PendingSubscription.marshalXML (p : PendingSubscription) : XmlNode :=
  .elem "pending_subscription" []
    ([NestedPlan.marshalXML "plan" p.Plan] ++
     emitIf (p.Quantity != 0) (textElem "quantity" (toString p.Quantity)) ++
     emitIf (p.Price != 0) (textElem "unit_amount_in_cents" (toString p.Price)) ++
     marshalAddOnsWrapper p.SubscriptionAddOns)

/-- Subscription mirrors the Subscription struct of subscriptions.go.
AccountCode and InvoiceNumber are tagged with the dash name on the
encode side and are populated on decode from the account and invoice
link elements. -/
structure Subscription where
  Plan : NestedPlan
  AccountCode : String
  InvoiceNumber : Int
  UUID : String
  State : String
  UnitAmountInCents : Int
  Currency : String
  Quantity : Int
  TotalAmountInCents : Int
  ActivatedAt : NullTime
  CanceledAt : NullTime
  ExpiresAt : NullTime
  CurrentPeriodStartedAt : NullTime
  CurrentPeriodEndsAt : NullTime
  TrialStartedAt : NullTime
  TrialEndsAt : NullTime
  TaxInCents : Int
  TaxType : String
  TaxRegion : String
  TaxRate : GoFloat
  PONumber : String
  NetTerms : NullInt
  SubscriptionAddOns : List SubscriptionAddOn
  PendingSubscription : Option PendingSubscription

/-- Subscription.zero is the Go zero value. -/
def Subscription.zero : Subscription :=
  { Plan := NestedPlan.zero, AccountCode := "", InvoiceNumber := 0, UUID := "",
    State := "", UnitAmountInCents := 0, Currency := "", Quantity := 0,
    TotalAmountInCents := 0, ActivatedAt := { Time := none },
    CanceledAt := { Time := none }, ExpiresAt := { Time := none },
    CurrentPeriodStartedAt := { Time := none }, CurrentPeriodEndsAt := { Time := none },
    TrialStartedAt := { Time := none }, TrialEndsAt := { Time := none },
    TaxInCents := 0, TaxType := "", TaxRegion := "", TaxRate := (0.0 : Float),
    PONumber := "", NetTerms := { Int := 0, Valid := false }, SubscriptionAddOns := [],
    PendingSubscription := none }

/-- decodeIntField converts element text for a plain int field, naming
the field on a type mismatch. -/
def decodeIntField (field : String) (cs : List XmlNode) : Except String Int :=
  match parseGoInt (XmlNode.allTextList cs) with
  | some v => .ok v
  | none => .error (field ++ ": invalid int")

/-- decodeNullTimeField runs the nullable timestamp decoder on element
text, naming the field on a type mismatch. -/
def decodeNullTimeField (field : String) (cur : NullTime) (cs : List XmlNode) :
    Except String NullTime :=
  match NullTime.unmarshalXML cur (XmlNode.allTextList cs) with
  | (t, none) => .ok t
  | (_, some e) => .error (field ++ ": " ++ e)

/-- Subscription.decodeStep folds one wire child into the record,
mirroring the intermediate struct of the Subscription UnmarshalXML
method: account and invoice resolve through the href wrappers, the rest
follow their tags. -/
def Subscription.decodeStep (s : Subscription) : XmlNode → Except String Subscription
  | .elem "plan" a cs => .ok { s with Plan := NestedPlan.unmarshalXML (.elem "plan" a cs) }
  | .elem "account" a cs => .ok { s with AccountCode := hrefString (.elem "account" a cs) }
  | .elem "invoice" a cs => .ok { s with InvoiceNumber := hrefInt (.elem "invoice" a cs) }
  | .elem "uuid" _ cs => .ok { s with UUID := XmlNode.allTextList cs }
  | .elem "state" _ cs => .ok { s with State := XmlNode.allTextList cs }
  | .elem "unit_amount_in_cents" _ cs =>
    (decodeIntField "unit_amount_in_cents" cs).map fun v => { s with UnitAmountInCents := v }
  | .elem "currency" _ cs => .ok { s with Currency := XmlNode.allTextList cs }
  | .elem "quantity" _ cs =>
    (decodeIntField "quantity" cs).map fun v => { s with Quantity := v }
  | .elem "total_amount_in_cents" _ cs =>
    (decodeIntField "total_amount_in_cents" cs).map fun v => { s with TotalAmountInCents := v }
  | .elem "activated_at" _ cs =>
    (decodeNullTimeField "activated_at" s.ActivatedAt cs).map fun t => { s with ActivatedAt := t }
  | .elem "canceled_at" _ cs =>
    (decodeNullTimeField "canceled_at" s.CanceledAt cs).map fun t => { s with CanceledAt := t }
  | .elem "expires_at" _ cs =>
    (decodeNullTimeField "expires_at" s.ExpiresAt cs).map fun t => { s with ExpiresAt := t }
  | .elem "current_period_started_at" _ cs =>
    (decodeNullTimeField "current_period_started_at" s.CurrentPeriodStartedAt cs).map
      fun t => { s with CurrentPeriodStartedAt := t }
  | .elem "current_period_ends_at" _ cs =>
    (decodeNullTimeField "current_period_ends_at" s.CurrentPeriodEndsAt cs).map
      fun t => { s with CurrentPeriodEndsAt := t }
  | .elem "trial_started_at" _ cs =>
    (decodeNullTimeField "trial_started_at" s.TrialStartedAt cs).map
      fun t => { s with TrialStartedAt := t }
  | .elem "trial_ends_at" _ cs =>
    (decodeNullTimeField "trial_ends_at" s.TrialEndsAt cs).map
      fun t => { s with TrialEndsAt := t }
  | .elem "tax_in_cents" _ cs =>
    (decodeIntField "tax_in_cents" cs).map fun v => { s with TaxInCents := v }
  | .elem "tax_type" _ cs => .ok { s with TaxType := XmlNode.allTextList cs }
  | .elem "tax_region" _ cs => .ok { s with TaxRegion := XmlNode.allTextList cs }
  | .elem "tax_rate" _ cs =>
    match parseGoFloat (XmlNode.allTextList cs) with
    | some v => .ok { s with TaxRate := v }
    | none => .error "tax_rate: invalid float"
  | .elem "po_number" _ cs => .ok { s with PONumber := XmlNode.allTextList cs }
  | .elem "net_terms" _ cs =>
    .ok { s with NetTerms := (NullInt.unmarshalXML s.NetTerms (XmlNode.allTextList cs)).1 }
  | .elem "subscription_add_ons" a cs =>
    (decodeAddOnList (.elem "subscription_add_ons" a cs)).map fun l =>
      { s with SubscriptionAddOns := l }
  | .elem "pending_subscription" a cs =>
    (PendingSubscription.unmarshalXML (.elem "pending_subscription" a cs)).map fun p =>
      { s with PendingSubscription := some p }
  | _ => .ok s

/-- Subscription.unmarshalXML embeds the Subscription UnmarshalXML
method: decode into the intermediate shape, then copy every field
across, turning the href wrappers into plain values. -/
def Subscription.unmarshalXML (node : XmlNode) : Except String Subscription :=
  match node with
  | .elem _ _ cs => cs.foldlM Subscription.decodeStep Subscription.zero
  | .text _ => .ok Subscription.zero

/-- nullTimeField lists the element a nullable timestamp contributes on
encode: one element when set, nothing when unset. -/
def nullTimeField (name : String) (t : NullTime) : List XmlNode :=
  ((NullTime.marshalXML t name).1).toList

/-- nullIntField lists the element a nullable int contributes on encode. -/
def nullIntField (name : String) (n : NullInt) : List XmlNode :=
  ((NullInt.marshalXML n name).1).toList

/-- nullBoolField lists the element a nullable bool contributes on
encode. -/
def nullBoolField (name : String) (n : NullBool) : List XmlNode :=
  ((NullBool.marshalXML n name).1).toList

/-- Subscription.marshalXML is the default tagged encode of the
Subscription struct: fields appear in declared order, AccountCode and
InvoiceNumber are tagged with the dash name and never written, plain
scalars respect omitempty, and nullable wrappers emit exactly when set. -/
def Subscription.marshalXML (s : Subscription) : XmlNode :=
  .elem "subscription" []
    ([NestedPlan.marshalXML "plan" s.Plan] ++
     emitIf (s.UUID != "") (textElem "uuid" s.UUID) ++
     emitIf (s.State != "") (textElem "state" s.State) ++
     emitIf (s.UnitAmountInCents != 0)
       (textElem "unit_amount_in_cents" (toString s.UnitAmountInCents)) ++
     emitIf (s.Currency != "") (textElem "currency" s.Currency) ++
     emitIf (s.Quantity != 0) (textElem "quantity" (toString s.Quantity)) ++
     emitIf (s.TotalAmountInCents != 0)
       (textElem "total_amount_in_cents" (toString s.TotalAmountInCents)) ++
     nullTimeField "activated_at" s.ActivatedAt ++
     nullTimeField "canceled_at" s.CanceledAt ++
     nullTimeField "expires_at" s.ExpiresAt ++
     nullTimeField "current_period_started_at" s.CurrentPeriodStartedAt ++
     nullTimeField "current_period_ends_at" s.CurrentPeriodEndsAt ++
     nullTimeField "trial_started_at" s.TrialStartedAt ++
     nullTimeField "trial_ends_at" s.TrialEndsAt ++
     emitIf (s.TaxInCents != 0) (textElem "tax_in_cents" (toString s.TaxInCents)) ++
     emitIf (s.TaxType != "") (textElem "tax_type" s.TaxType) ++
     emitIf (s.TaxRegion != "") (textElem "tax_region" s.TaxRegion) ++
     emitIf (!(s.TaxRate == (0 : GoFloat))) (textElem "tax_rate" (formatGoFloat s.TaxRate)) ++
     emitIf (s.PONumber != "") (textElem "po_number" s.PONumber) ++
     nullIntField "net_terms" s.NetTerms ++
     marshalAddOnsWrapper s.SubscriptionAddOns ++
     (match s.PendingSubscription with
      | none => []
      | some p => [PendingSubscription.marshalXML p]))

/-- UpdateSubscription mirrors the UpdateSubscription struct; the add-on
pointer is an Option around the list. -/
structure UpdateSubscription where
  Timeframe : String
  PlanCode : String
  Quantity : Int
  UnitAmountInCents : Int
  CollectionMethod : String
  NetTerms : NullInt
  PONumber : String
  SubscriptionAddOns : Option (List SubscriptionAddOn)
deriving DecidableEq

/-- UpdateSubscription.marshalXML is the default tagged encode: every
plain field carries omitempty, NetTerms follows the nullable rule, and a
nil add-on pointer or an empty pointed-to list emits nothing. -/
def UpdateSubscription.marshalXML (u : UpdateSubscription) : XmlNode :=
  .elem "subscription" []
    (emitIf (u.Timeframe != "") (textElem "timeframe" u.Timeframe) ++
     emitIf (u.PlanCode != "") (textElem "plan_code" u.PlanCode) ++
     emitIf (u.Quantity != 0) (textElem "quantity" (toString u.Quantity)) ++
     emitIf (u.UnitAmountInCents != 0)
       (textElem "unit_amount_in_cents" (toString u.UnitAmountInCents)) ++
     emitIf (u.CollectionMethod != "") (textElem "collection_method" u.CollectionMethod) ++
     nullIntField "net_terms" u.NetTerms ++
     emitIf (u.PONumber != "") (textElem "po_number" u.PONumber) ++
     (match u.SubscriptionAddOns with
      | none => []
      | some l => marshalAddOnsWrapper l))

/-- Subscription.MakeUpdate embeds the MakeUpdate method: it copies
NetTerms and points at the add-on slice, leaving every other update
field at its zero value. -/
def Subscription.MakeUpdate (s : Subscription) : UpdateSubscription :=
  { Timeframe := "", PlanCode := "", Quantity := 0, UnitAmountInCents := 0,
    CollectionMethod := "", NetTerms := s.NetTerms, PONumber := "",
    SubscriptionAddOns := some s.SubscriptionAddOns }

/-- Billing is the billing-info sub-record.  Modelled from the spec: the
type is declared outside the given sources; the tests exercise only the
token field, encoded as token_id when non-empty. -/
structure Billing where
  Token : String
deriving DecidableEq

/-- Account is the owned account sub-record sent when creating
subscriptions.  Modelled from the spec: the type is declared outside the
given sources; the tests exercise the account code (encoded as
account_code, omitted when empty) and the optional billing info. -/
structure Account where
  Code : String
  BillingInfo : Option Billing
deriving DecidableEq

/-- Account.marshalXML encodes the account sub-record under the given
element name; the element itself is always written. -/
def Account.marshalXML (name : String) (a : Account) : XmlNode :=
  .elem name []
    (emitIf (a.Code != "") (textElem "account_code" a.Code) ++
     (match a.BillingInfo with
      | none => []
      | some b => [.elem "billing_info" []
          (emitIf (b.Token != "") (textElem "token_id" b.Token))]))

/-- NewSubscription mirrors the NewSubscription struct used to create
subscriptions. -/
structure NewSubscription where
  PlanCode : String
  Account : Account
  SubscriptionAddOns : Option (List SubscriptionAddOn)
  CouponCode : String
  UnitAmountInCents : Int
  Currency : String
  Quantity : Int
  TrialEndsAt : NullTime
  StartsAt : NullTime
  TotalBillingCycles : Int
  FirstRenewalDate : NullTime
  CollectionMethod : String
  NetTerms : NullInt
  PONumber : String
  Bulk : Bool
  TermsAndConditions : String
  CustomerNotes : String
  VATReverseChargeNotes : String
  BankAccountAuthorizedAt : NullTime
deriving DecidableEq

/-- NewSubscription.marshalXML is the default tagged encode: plan_code,
account and currency have no omitempty and are always written, in the
declared field order; everything else is selectively emitted. -/
def NewSubscription.marshalXML (s : NewSubscription) : XmlNode :=
  .elem "subscription" []
    ([textElem "plan_code" s.PlanCode] ++
     [Account.marshalXML "account" s.Account] ++
     (match s.SubscriptionAddOns with
      | none => []
      | some l => marshalAddOnsWrapper l) ++
     emitIf (s.CouponCode != "") (textElem "coupon_code" s.CouponCode) ++
     emitIf (s.UnitAmountInCents != 0)
       (textElem "unit_amount_in_cents" (toString s.UnitAmountInCents)) ++
     [textElem "currency" s.Currency] ++
     emitIf (s.Quantity != 0) (textElem "quantity" (toString s.Quantity)) ++
     nullTimeField "trial_ends_at" s.TrialEndsAt ++
     nullTimeField "starts_at" s.StartsAt ++
     emitIf (s.TotalBillingCycles != 0)
       (textElem "total_billing_cycles" (toString s.TotalBillingCycles)) ++
     nullTimeField "first_renewal_date" s.FirstRenewalDate ++
     emitIf (s.CollectionMethod != "") (textElem "collection_method" s.CollectionMethod) ++
     nullIntField "net_terms" s.NetTerms ++
     emitIf (s.PONumber != "") (textElem "po_number" s.PONumber) ++
     emitIf s.Bulk (textElem "bulk" "true") ++
     emitIf (s.TermsAndConditions != "")
       (textElem "terms_and_conditions" s.TermsAndConditions) ++
     emitIf (s.CustomerNotes != "") (textElem "customer_notes" s.CustomerNotes) ++
     emitIf (s.VATReverseChargeNotes != "")
       (textElem "vat_reverse_charge_notes" s.VATReverseChargeNotes) ++
     nullTimeField "bank_account_authorized_at" s.BankAccountAuthorizedAt)

/-! ## Records of transactions.go -/

/-- TransactionError mirrors the TransactionError struct. -/
structure TransactionError where
  ErrorCode : String
  ErrorCategory : String
  MerchantMessage : String
  CustomerMessage : String
  GatewayErrorCode : String
deriving DecidableEq

/-- TransactionResult mirrors the shared transaction-result shape: a code
attribute and the inner message. -/
structure TransactionResult where
  Code : String
  Message : String
deriving DecidableEq

/-- TransactionResult.zero is the Go zero value. -/
def TransactionResult.zero : TransactionResult := { Code := "", Message := "" }

/-- GoIP models a net.IP as its textual form; empty means the nil slice. -/
abbrev GoIP := String

/-- Transaction mirrors the Transaction struct of transactions.go,
including its read-only fields. -/
structure Transaction where
  InvoiceNumber : Int
  UUID : String
  Action : String
  AmountInCents : Int
  TaxInCents : Int
  Currency : String
  Status : String
  Description : String
  ProductCode : String
  PaymentMethod : String
  Reference : String
  Source : String
  Recurring : NullBool
  Test : Bool
  Voidable : NullBool
  Refundable : NullBool
  IPAddress : GoIP
  TransactionError : Option TransactionError
  CVVResult : TransactionResult
  AVSResult : TransactionResult
  AVSResultStreet : String
  AVSResultPostal : String
  CreatedAt : NullTime
  Account : Account
deriving DecidableEq

/-- Transaction.marshalXML embeds the Transaction MarshalXML method: it
copies only the writable fields into an anonymous shape whose account is
the flat account element, encodes that shape, and always returns the nil
error (the inner encode error is discarded). -/
def Transaction.marshalXML (t : Transaction) : XmlNode × Option String :=
  (.elem "transaction" []
    (emitIf (t.Action != "") (textElem "action" t.Action) ++
     [textElem "amount_in_cents" (toString t.AmountInCents)] ++
     emitIf (t.TaxInCents != 0) (textElem "tax_in_cents" (toString t.TaxInCents)) ++
     [textElem "currency" t.Currency] ++
     emitIf (t.Status != "") (textElem "status" t.Status) ++
     emitIf (t.Description != "") (textElem "description" t.Description) ++
     emitIf (t.ProductCode != "") (textElem "product_code" t.ProductCode) ++
     emitIf (t.PaymentMethod != "") (textElem "payment_method" t.PaymentMethod) ++
     emitIf (t.Reference != "") (textElem "reference" t.Reference) ++
     emitIf (t.Source != "") (textElem "source" t.Source) ++
     nullBoolField "recurring" t.Recurring ++
     emitIf t.Test (textElem "test" "true") ++
     nullBoolField "voidable" t.Voidable ++
     nullBoolField "refundable" t.Refundable ++
     emitIf (t.IPAddress != "") (textElem "ip_address" t.IPAddress) ++
     [Account.marshalXML "account" t.Account]),
   none)

/-- Transactions is the sortable slice of Transaction. -/
abbrev Transactions := List Transaction

/-- Transactions.Less embeds the Less method of the sort interface.  The
Go body dereferences both CreatedAt.Time pointers with no guard, so the
result is an Option: some carries the comparison when both indices are in
range and both timestamps are set, and none marks the run-time panic of
an out-of-range index or a nil timestamp dereference. -/
def Transactions.Less (s : Transactions) (i j : Nat) : Option Bool :=
  match s.get? i, s.get? j with
  | some a, some b =>
    match a.CreatedAt.Time, b.CreatedAt.Time with
    | some ta, some tb => some (decide ((ta : Int) < (tb : Int)))
    | _, _ => none
  | _, _ => none

/-! ## The webhooks package -/

namespace Webhooks

/-- NewAccount is the new-account event name constant. -/
def NewAccount : String := "new_account_notification"

/-- UpdatedAccount is the updated-account event name constant. -/
def UpdatedAccount : String := "updated_account_notification"

/-- BillingInfoUpdated is the billing-info-updated event name constant. -/
def BillingInfoUpdated : String := "billing_info_updated_notification"

/-- ReactivedAccount is the reactivated-account event name constant
(spelled as in the source). -/
def ReactivedAccount : String := "reactivated_account_notification"

/-- NewSubscription is the new-subscription event name constant. -/
def NewSubscription : String := "new_subscription_notification"

/-- UpdatedSubscription is the updated-subscription event name constant. -/
def UpdatedSubscription : String := "updated_subscription_notification"

/-- RenewedSubscription is the renewed-subscription event name constant. -/
def RenewedSubscription : String := "renewed_subscription_notification"

/-- ExpiredSubscription is the expired-subscription event name constant. -/
def ExpiredSubscription : String := "expired_subscription_notification"

/-- CanceledSubscription is the canceled-subscription event name
constant. -/
def CanceledSubscription : String := "canceled_subscription_notification"

/-- ReactivatedSubscription is the reactivated-subscription event name
constant (its value misspells subscription, as in the source). -/
def ReactivatedSubscription : String := "reactivated_subcription_notification"

/-- NewInvoice is the new-invoice event name constant. -/
def NewInvoice : String := "new_invoice_notification"

/-- PastDueInvoice is the past-due-invoice event name constant. -/
def PastDueInvoice : String := "past_due_invoice_notification"

/-- ClosedInvoice is the closed-invoice event name constant. -/
def ClosedInvoice : String := "closed_invoice_notification"

/-- ProcessingInvoice is the processing-invoice event name constant. -/
def ProcessingInvoice : String := "processing_invoice_notification"

/-- NewShippingAddress is the new-shipping-address event name constant. -/
def NewShippingAddress : String := "new_shipping_address_notification"

/-- DeletedShippingAddress is the deleted-shipping-address event name
constant. -/
def DeletedShippingAddress : String := "deleted_shipping_address_notification"

/-- UpdatedShippingAddress is the updated-shipping-address event name
constant. -/
def UpdatedShippingAddress : String := "updated_shipping_address_notification"

/-- SuccessfulPayment is the successful-payment event name constant. -/
def SuccessfulPayment : String := "successful_payment_notification"

/-- FailedPayment is the failed-payment event name constant. -/
def FailedPayment : String := "failed_payment_notification"

/-- VoidPayment is the void-payment event name constant. -/
def VoidPayment : String := "void_payment_notification"

/-- SuccessfulRefund is the successful-refund event name constant. -/
def SuccessfulRefund : String := "successful_refund_notification"

/-- NewDunningEvent is the new-dunning-event event name constant. -/
def NewDunningEvent : String := "new_dunning_event_notification"

/-- registeredNames lists every named notification constant of the
webhooks package, in declaration order. -/
def registeredNames : List String :=
  [NewAccount, UpdatedAccount, BillingInfoUpdated, ReactivedAccount,
   NewSubscription, UpdatedSubscription, RenewedSubscription, ExpiredSubscription,
   CanceledSubscription, ReactivatedSubscription,
   NewInvoice, PastDueInvoice, ClosedInvoice, ProcessingInvoice,
   NewShippingAddress, DeletedShippingAddress, UpdatedShippingAddress,
   SuccessfulPayment, FailedPayment, VoidPayment, SuccessfulRefund,
   NewDunningEvent]

/-- Account mirrors the account object sent in webhooks. -/
structure Account where
  Code : String
  Username : String
  Email : String
  FirstName : String
  LastName : String
  CompanyName : String
  Phone : String
deriving DecidableEq

/-- Account.zero is the Go zero value. -/
def Account.zero : Account :=
  { Code := "", Username := "", Email := "", FirstName := "", LastName := "",
    CompanyName := "", Phone := "" }

/-- Account.decodeStep folds one wire child into the webhook account;
every field is a string, so decoding cannot fail. -/
def Account.decodeStep (a : Account) : XmlNode → Account
  | .elem "account_code" _ cs => { a with Code := XmlNode.allTextList cs }
  | .elem "username" _ cs => { a with Username := XmlNode.allTextList cs }
  | .elem "email" _ cs => { a with Email := XmlNode.allTextList cs }
  | .elem "first_name" _ cs => { a with FirstName := XmlNode.allTextList cs }
  | .elem "last_name" _ cs => { a with LastName := XmlNode.allTextList cs }
  | .elem "company_name" _ cs => { a with CompanyName := XmlNode.allTextList cs }
  | .elem "phone" _ cs => { a with Phone := XmlNode.allTextList cs }
  | _ => a

/-- Account.unmarshalXML decodes a webhook account element. -/
def Account.unmarshalXML (node : XmlNode) : Account :=
  match node with
  | .elem _ _ cs => cs.foldl Account.decodeStep Account.zero
  | .text _ => Account.zero

/-- Transaction mirrors the transaction object sent in webhooks. -/
structure Transaction where
  UUID : String
  InvoiceNumber : Int
  SubscriptionUUID : String
  Action : String
  AmountInCents : Int
  Status : String
  Message : String
  GatewayErrorCodes : String
  FailureType : String
  Reference : String
  Source : String
  Test : NullBool
  Voidable : NullBool
  Refundable : NullBool
deriving DecidableEq

/-- Transaction.zero is the Go zero value. -/
def Transaction.zero : Transaction :=
  { UUID := "", InvoiceNumber := 0, SubscriptionUUID := "", Action := "",
    AmountInCents := 0, Status := "", Message := "", GatewayErrorCodes := "",
    FailureType := "", Reference := "", Source := "",
    Test := { Valid := false, Bool := false },
    Voidable := { Valid := false, Bool := false },
    Refundable := { Valid := false, Bool := false } }

/-- decodeNullBoolField runs the nullable bool decoder on element text,
naming the field on a type mismatch. -/
def decodeNullBoolField (field : String) (cur : NullBool) (cs : List XmlNode) :
    Except String NullBool :=
  match NullBool.unmarshalXML cur (XmlNode.allTextList cs) with
  | (b, none) => .ok b
  | (_, some e) => .error (field ++ ": " ++ e)

/-- Transaction.decodeStep folds one wire child into the webhook
transaction. -/
def Transaction.decodeStep (t : Transaction) : XmlNode → Except String Transaction
  | .elem "id" _ cs => .ok { t with UUID := XmlNode.allTextList cs }
  | .elem "invoice_number" _ cs =>
    (decodeIntField "invoice_number" cs).map fun v => { t with InvoiceNumber := v }
  | .elem "subscription_id" _ cs => .ok { t with SubscriptionUUID := XmlNode.allTextList cs }
  | .elem "action" _ cs => .ok { t with Action := XmlNode.allTextList cs }
  | .elem "amount_in_cents" _ cs =>
    (decodeIntField "amount_in_cents" cs).map fun v => { t with AmountInCents := v }
  | .elem "status" _ cs => .ok { t with Status := XmlNode.allTextList cs }
  | .elem "message" _ cs => .ok { t with Message := XmlNode.allTextList cs }
  | .elem "gateway_error_codes" _ cs =>
    .ok { t with GatewayErrorCodes := XmlNode.allTextList cs }
  | .elem "failure_type" _ cs => .ok { t with FailureType := XmlNode.allTextList cs }
  | .elem "reference" _ cs => .ok { t with Reference := XmlNode.allTextList cs }
  | .elem "source" _ cs => .ok { t with Source := XmlNode.allTextList cs }
  | .elem "test" _ cs =>
    (decodeNullBoolField "test" t.Test cs).map fun b => { t with Test := b }
  | .elem "voidable" _ cs =>
    (decodeNullBoolField "voidable" t.Voidable cs).map fun b => { t with Voidable := b }
  | .elem "refundable" _ cs =>
    (decodeNullBoolField "refundable" t.Refundable cs).map fun b => { t with Refundable := b }
  | _ => .ok t

/-- Transaction.unmarshalXML decodes a webhook transaction element. -/
def Transaction.unmarshalXML (node : XmlNode) : Except String Transaction :=
  match node with
  | .elem _ _ cs => cs.foldlM Transaction.decodeStep Transaction.zero
  | .text _ => .ok Transaction.zero

/-- Invoice mirrors the invoice object sent in webhooks. -/
structure Invoice where
  SubscriptionUUID : String
  UUID : String
  State : String
  InvoiceNumberPrefix : String
  InvoiceNumber : Int
  PONumber : String
  VATNumber : String
  TotalInCents : Int
  Currency : String
  CreatedAt : NullTime
  ClosedAt : NullTime
  NetTerms : NullInt
  CollectionMethod : String
deriving DecidableEq

/-- Invoice.zero is the Go zero value. -/
def Invoice.zero : Invoice :=
  { SubscriptionUUID := "", UUID := "", State := "", InvoiceNumberPrefix := "",
    InvoiceNumber := 0, PONumber := "", VATNumber := "", TotalInCents := 0,
    Currency := "", CreatedAt := { Time := none }, ClosedAt := { Time := none },
    NetTerms := { Int := 0, Valid := false }, CollectionMethod := "" }

/-- Invoice.decodeStep folds one wire child into the webhook invoice. -/
def Invoice.decodeStep (v : Invoice) : XmlNode → Except String Invoice
  | .elem "subscription_id" _ cs => .ok { v with SubscriptionUUID := XmlNode.allTextList cs }
  | .elem "uuid" _ cs => .ok { v with UUID := XmlNode.allTextList cs }
  | .elem "state" _ cs => .ok { v with State := XmlNode.allTextList cs }
  | .elem "invoice_number_prefix" _ cs =>
    .ok { v with InvoiceNumberPrefix := XmlNode.allTextList cs }
  | .elem "invoice_number" _ cs =>
    (decodeIntField "invoice_number" cs).map fun n => { v with InvoiceNumber := n }
  | .elem "po_number" _ cs => .ok { v with PONumber := XmlNode.allTextList cs }
  | .elem "vat_number" _ cs => .ok { v with VATNumber := XmlNode.allTextList cs }
  | .elem "total_in_cents" _ cs =>
    (decodeIntField "total_in_cents" cs).map fun n => { v with TotalInCents := n }
  | .elem "currency" _ cs => .ok { v with Currency := XmlNode.allTextList cs }
  | .elem "date" _ cs =>
    (decodeNullTimeField "date" v.CreatedAt cs).map fun t => { v with CreatedAt := t }
  | .elem "closed_at" _ cs =>
    (decodeNullTimeField "closed_at" v.ClosedAt cs).map fun t => { v with ClosedAt := t }
  | .elem "net_terms" _ cs =>
    .ok { v with NetTerms := (NullInt.unmarshalXML v.NetTerms (XmlNode.allTextList cs)).1 }
  | .elem "collection_method" _ cs => .ok { v with CollectionMethod := XmlNode.allTextList cs }
  | _ => .ok v

/-- Invoice.unmarshalXML decodes a webhook invoice element. -/
def Invoice.unmarshalXML (node : XmlNode) : Except String Invoice :=
  match node with
  | .elem _ _ cs => cs.foldlM Invoice.decodeStep Invoice.zero
  | .text _ => .ok Invoice.zero

/-- ShippingAdddress mirrors the shipping address object sent in
webhooks (spelled as in the source). -/
structure ShippingAdddress where
  ID : Int
  Nickname : String
  FirstName : String
  LastName : String
  CompanyName : String
  VATNumber : String
  Street1 : String
  Street2 : String
  City : String
  State : String
  Zip : String
  Country : String
  Email : String
  Phone : String
deriving DecidableEq

/-- ShippingAdddress.zero is the Go zero value. -/
def ShippingAdddress.zero : ShippingAdddress :=
  { ID := 0, Nickname := "", FirstName := "", LastName := "", CompanyName := "",
    VATNumber := "", Street1 := "", Street2 := "", City := "", State := "",
    Zip := "", Country := "", Email := "", Phone := "" }

/-- ShippingAdddress.decodeStep folds one wire child into the shipping
address. -/
def ShippingAdddress.decodeStep (a : ShippingAdddress) :
    XmlNode → Except String ShippingAdddress
  | .elem "id" _ cs => (decodeIntField "id" cs).map fun n => { a with ID := n }
  | .elem "nickname" _ cs => .ok { a with Nickname := XmlNode.allTextList cs }
  | .elem "first_name" _ cs => .ok { a with FirstName := XmlNode.allTextList cs }
  | .elem "last_name" _ cs => .ok { a with LastName := XmlNode.allTextList cs }
  | .elem "company_name" _ cs => .ok { a with CompanyName := XmlNode.allTextList cs }
  | .elem "vat_number" _ cs => .ok { a with VATNumber := XmlNode.allTextList cs }
  | .elem "street1" _ cs => .ok { a with Street1 := XmlNode.allTextList cs }
  | .elem "street2" _ cs => .ok { a with Street2 := XmlNode.allTextList cs }
  | .elem "city" _ cs => .ok { a with City := XmlNode.allTextList cs }
  | .elem "state" _ cs => .ok { a with State := XmlNode.allTextList cs }
  | .elem "zip" _ cs => .ok { a with Zip := XmlNode.allTextList cs }
  | .elem "country" _ cs => .ok { a with Country := XmlNode.allTextList cs }
  | .elem "email" _ cs => .ok { a with Email := XmlNode.allTextList cs }
  | .elem "phone" _ cs => .ok { a with Phone := XmlNode.allTextList cs }
  | _ => .ok a

/-- ShippingAdddress.unmarshalXML decodes a webhook shipping address
element. -/
def ShippingAdddress.unmarshalXML (node : XmlNode) : Except String ShippingAdddress :=
  match node with
  | .elem _ _ cs => cs.foldlM ShippingAdddress.decodeStep ShippingAdddress.zero
  | .text _ => .ok ShippingAdddress.zero

/-- AccountNotificationShape is the payload shape shared by the four
account notification types (NewAccountNotification,
UpdatedAccountNotification, ReactivatedAccountNotification,
BillingInfoUpdatedNotification): one account sub-record. -/
structure AccountNotificationShape where
  Account : Account
deriving DecidableEq

/-- AccountNotificationShape.unmarshalXML decodes the account child of
the envelope, leaving the zero account when it is absent. -/
def AccountNotificationShape.unmarshalXML (node : XmlNode) :
    Except String AccountNotificationShape :=
  match node with
  | .elem _ _ cs =>
    .ok (cs.foldl (fun x c =>
      match c with
      | .elem "account" a gs => { x with Account := Account.unmarshalXML (.elem "account" a gs) }
      | _ => x) { Account := Account.zero })
  | .text _ => .ok { Account := Account.zero }

/-- SubscriptionNotificationShape is the payload shape shared by the
five subscription notification types: an account and a subscription. -/
structure SubscriptionNotificationShape where
  Account : Account
  Subscription : Subscription

/-- SubscriptionNotificationShape.unmarshalXML decodes the account and
subscription children of the envelope. -/
def SubscriptionNotificationShape.unmarshalXML (node : XmlNode) :
    Except String SubscriptionNotificationShape :=
  match node with
  | .elem _ _ cs =>
    cs.foldlM (fun x c =>
      match c with
      | .elem "account" a gs =>
        .ok { x with Account := Account.unmarshalXML (.elem "account" a gs) }
      | .elem "subscription" a gs =>
        (Subscription.unmarshalXML (.elem "subscription" a gs)).map fun s =>
          { x with Subscription := s }
      | _ => .ok x)
      { Account := Account.zero, Subscription := Subscription.zero }
  | .text _ => .ok { Account := Account.zero, Subscription := Subscription.zero }

/-- InvoiceNotificationShape is the payload shape shared by the four
invoice notification types: an account and an invoice. -/
structure InvoiceNotificationShape where
  Account : Account
  Invoice : Invoice
deriving DecidableEq

/-- InvoiceNotificationShape.unmarshalXML decodes the account and
invoice children of the envelope. -/
def InvoiceNotificationShape.unmarshalXML (node : XmlNode) :
    Except String InvoiceNotificationShape :=
  match node with
  | .elem _ _ cs =>
    cs.foldlM (fun x c =>
      match c with
      | .elem "account" a gs =>
        .ok { x with Account := Account.unmarshalXML (.elem "account" a gs) }
      | .elem "invoice" a gs =>
        (Invoice.unmarshalXML (.elem "invoice" a gs)).map fun v => { x with Invoice := v }
      | _ => .ok x)
      { Account := Account.zero, Invoice := Invoice.zero }
  | .text _ => .ok { Account := Account.zero, Invoice := Invoice.zero }

/-- PaymentNotificationShape is the payload shape shared by the four
payment notification types: an account and a webhook transaction. -/
structure PaymentNotificationShape where
  Account : Account
  Transaction : Transaction
deriving DecidableEq

/-- PaymentNotificationShape.unmarshalXML decodes the account and
transaction children of the envelope. -/
def PaymentNotificationShape.unmarshalXML (node : XmlNode) :
    Except String PaymentNotificationShape :=
  match node with
  | .elem _ _ cs =>
    cs.foldlM (fun x c =>
      match c with
      | .elem "account" a gs =>
        .ok { x with Account := Account.unmarshalXML (.elem "account" a gs) }
      | .elem "transaction" a gs =>
        (Transaction.unmarshalXML (.elem "transaction" a gs)).map fun t =>
          { x with Transaction := t }
      | _ => .ok x)
      { Account := Account.zero, Transaction := Transaction.zero }
  | .text _ => .ok { Account := Account.zero, Transaction := Transaction.zero }

/-- ShippingAddressNotificationShape is the payload shape shared by the
three shipping-address notification types. -/
structure ShippingAddressNotificationShape where
  Account : Account
  ShippingAdddress : ShippingAdddress
deriving DecidableEq

/-- ShippingAddressNotificationShape.unmarshalXML decodes the account
and shipping address children of the envelope. -/
def ShippingAddressNotificationShape.unmarshalXML (node : XmlNode) :
    Except String ShippingAddressNotificationShape :=
  match node with
  | .elem _ _ cs =>
    cs.foldlM (fun x c =>
      match c with
      | .elem "account" a gs =>
        .ok { x with Account := Account.unmarshalXML (.elem "account" a gs) }
      | .elem "shipping_address" a gs =>
        (ShippingAdddress.unmarshalXML (.elem "shipping_address" a gs)).map fun v =>
          { x with ShippingAdddress := v }
      | _ => .ok x)
      { Account := Account.zero, ShippingAdddress := ShippingAdddress.zero }
  | .text _ => .ok { Account := Account.zero, ShippingAdddress := ShippingAdddress.zero }

/-- NewDunningEventNotification mirrors its Go struct: account, invoice,
subscription (its field misspelled as in the source) and transaction. -/
structure NewDunningEventNotification where
  Account : Account
  Invoice : Invoice
  Subsription : Subscription
  Transaction : Transaction

/-- NewDunningEventNotification.unmarshalXML decodes the four children
of the envelope. -/
def NewDunningEventNotification.unmarshalXML (node : XmlNode) :
    Except String NewDunningEventNotification :=
  match node with
  | .elem _ _ cs =>
    cs.foldlM (fun x c =>
      match c with
      | .elem "account" a gs =>
        .ok { x with Account := Account.unmarshalXML (.elem "account" a gs) }
      | .elem "invoice" a gs =>
        (Invoice.unmarshalXML (.elem "invoice" a gs)).map fun v => { x with Invoice := v }
      | .elem "subscription" a gs =>
        (Subscription.unmarshalXML (.elem "subscription" a gs)).map fun s =>
          { x with Subsription := s }
      | .elem "transaction" a gs =>
        (Transaction.unmarshalXML (.elem "transaction" a gs)).map fun t =>
          { x with Transaction := t }
      | _ => .ok x)
      { Account := Account.zero, Invoice := Invoice.zero,
        Subsription := Subscription.zero, Transaction := Transaction.zero }
  | .text _ =>
    .ok { Account := Account.zero, Invoice := Invoice.zero,
          Subsription := Subscription.zero, Transaction := Transaction.zero }

/-- NotificationData is the closed set of notification variants; each
constructor stands for one concrete Go notification type, so the
constructor itself is the identity of the variant the dispatcher
produced. -/
inductive NotificationData where
  | newAccount (v : AccountNotificationShape)
  | updatedAccount (v : AccountNotificationShape)
  | reactivatedAccount (v : AccountNotificationShape)
  | billingInfoUpdated (v : AccountNotificationShape)
  | newSubscription (v : SubscriptionNotificationShape)
  | updatedSubscription (v : SubscriptionNotificationShape)
  | renewedSubscription (v : SubscriptionNotificationShape)
  | expiredSubscription (v : SubscriptionNotificationShape)
  | canceledSubscription (v : SubscriptionNotificationShape)
  | newInvoice (v : InvoiceNotificationShape)
  | pastDueInvoice (v : InvoiceNotificationShape)
  | processingInvoice (v : InvoiceNotificationShape)
  | closedInvoice (v : InvoiceNotificationShape)
  | successfulPayment (v : PaymentNotificationShape)
  | failedPayment (v : PaymentNotificationShape)
  | voidPayment (v : PaymentNotificationShape)
  | successfulRefund (v : PaymentNotificationShape)
  | newShippingAddress (v : ShippingAddressNotificationShape)
  | updatedShippingAddress (v : ShippingAddressNotificationShape)
  | deletedShippingAddress (v : ShippingAddressNotificationShape)
  | newDunningEvent (v : NewDunningEventNotification)

/-- ErrUnknownNotification is the typed failure for an incoming webhook
whose tag matches no predefined notification type. -/
structure ErrUnknownNotification where
  name : String
deriving DecidableEq

/-- ErrUnknownNotification.Name returns the name of the unknown
notification. -/
def ErrUnknownNotification.Name (e : ErrUnknownNotification) : String := e.name

/-- ErrUnknownNotification.Error implements the error interface text. -/
def ErrUnknownNotification.Error (e : ErrUnknownNotification) : String :=
  "unknown notification: " ++ e.name

/-- ParseError distinguishes the failure modes of Parse: the typed
unknown-notification error and a propagated decode error. -/
inductive ParseError where
  | unknownNotification (e : ErrUnknownNotification)
  | xmlError (msg : String)

/-- ParseResponse carries the sniffed event name and the hydrated
variant. -/
structure ParseResponse where
  Message : String
  Data : NotificationData

/-- route embeds the switch of Parse, case by case and in source order:
it maps the sniffed tag to the decoder of the destination variant, and
has no case for the ReactivedAccount constant, while the case keyed by
the ReactivatedSubscription constant builds the reactivated-account
variant, exactly as the source does. -/
def route (name : String) : Option (XmlNode → Except String NotificationData) :=
  if name = NewAccount then
    some fun p => (AccountNotificationShape.unmarshalXML p).map .newAccount
  else if name = UpdatedAccount then
    some fun p => (AccountNotificationShape.unmarshalXML p).map .updatedAccount
  else if name = ReactivatedSubscription then
    some fun p => (AccountNotificationShape.unmarshalXML p).map .reactivatedAccount
  else if name = BillingInfoUpdated then
    some fun p => (AccountNotificationShape.unmarshalXML p).map .billingInfoUpdated
  else if name = NewSubscription then
    some fun p => (SubscriptionNotificationShape.unmarshalXML p).map .newSubscription
  else if name = UpdatedSubscription then
    some fun p => (SubscriptionNotificationShape.unmarshalXML p).map .updatedSubscription
  else if name = RenewedSubscription then
    some fun p => (SubscriptionNotificationShape.unmarshalXML p).map .renewedSubscription
  else if name = ExpiredSubscription then
    some fun p => (SubscriptionNotificationShape.unmarshalXML p).map .expiredSubscription
  else if name = CanceledSubscription then
    some fun p => (SubscriptionNotificationShape.unmarshalXML p).map .canceledSubscription
  else if name = NewInvoice then
    some fun p => (InvoiceNotificationShape.unmarshalXML p).map .newInvoice
  else if name = PastDueInvoice then
    some fun p => (InvoiceNotificationShape.unmarshalXML p).map .pastDueInvoice
  else if name = ProcessingInvoice then
    some fun p => (InvoiceNotificationShape.unmarshalXML p).map .processingInvoice
  else if name = ClosedInvoice then
    some fun p => (InvoiceNotificationShape.unmarshalXML p).map .closedInvoice
  else if name = SuccessfulPayment then
    some fun p => (PaymentNotificationShape.unmarshalXML p).map .successfulPayment
  else if name = FailedPayment then
    some fun p => (PaymentNotificationShape.unmarshalXML p).map .failedPayment
  else if name = VoidPayment then
    some fun p => (PaymentNotificationShape.unmarshalXML p).map .voidPayment
  else if name = SuccessfulRefund then
    some fun p => (PaymentNotificationShape.unmarshalXML p).map .successfulRefund
  else if name = NewShippingAddress then
    some fun p => (ShippingAddressNotificationShape.unmarshalXML p).map .newShippingAddress
  else if name = UpdatedShippingAddress then
    some fun p => (ShippingAddressNotificationShape.unmarshalXML p).map .updatedShippingAddress
  else if name = DeletedShippingAddress then
    some fun p => (ShippingAddressNotificationShape.unmarshalXML p).map .deletedShippingAddress
  else if name = NewDunningEvent then
    some fun p => (NewDunningEventNotification.unmarshalXML p).map .newDunningEvent
  else none

/-- Parse embeds the Parse function of the webhooks package over a
well-formed payload: it sniffs the outer tag, routes through the switch,
hydrates the matched variant, and returns the tagged result; an
unmatched tag yields the typed unknown-notification error.  As a total
function it models the fact that dispatch never crashes. -/
def Parse (payload : XmlNode) : Except ParseError ParseResponse :=
  match route payload.localName with
  | none => .error (.unknownNotification { name := payload.localName })
  | some dec =>
    match dec payload with
    | .error e => .error (.xmlError e)
    | .ok d => .ok { Message := payload.localName, Data := d }

end Webhooks

/-! ## Helper lemmas on emitted element lists -/

theorem names_emitIf (b : Bool) (n : String) (a : List XmlAttr) (cs : List XmlNode) :
    (emitIf b (.elem n a cs)).filterMap XmlNode.nodeName = if b then [n] else [] := by
  cases b <;> simp [emitIf, XmlNode.nodeName]

theorem names_nullIntField (n : String) (v : NullInt) :
    (nullIntField n v).filterMap XmlNode.nodeName = if v.Valid then [n] else [] := by
  cases hv : v.Valid <;>
    simp [nullIntField, NullInt.marshalXML, hv, textElem, XmlNode.nodeName]

theorem names_nullBoolField (n : String) (v : NullBool) :
    (nullBoolField n v).filterMap XmlNode.nodeName = if v.Valid then [n] else [] := by
  cases hv : v.Valid <;>
    simp [nullBoolField, NullBool.marshalXML, hv, textElem, XmlNode.nodeName]

theorem names_nullTimeField (n : String) (v : NullTime) :
    (nullTimeField n v).filterMap XmlNode.nodeName =
      if v.Time.isSome then [n] else [] := by
  cases ht : v.Time <;>
    simp [nullTimeField, NullTime.marshalXML, ht, textElem, XmlNode.nodeName]

theorem names_addOnsWrapper (l : List SubscriptionAddOn) :
    (marshalAddOnsWrapper l).filterMap XmlNode.nodeName =
      if l.isEmpty then [] else ["subscription_add_ons"] := by
  cases hl : l.isEmpty <;> simp [marshalAddOnsWrapper, hl, XmlNode.nodeName]

theorem names_textElem (n s : String) :
    ([textElem n s] : List XmlNode).filterMap XmlNode.nodeName = [n] := by
  simp [textElem, XmlNode.nodeName]

/-- transaction_childNames computes the child tag names written by the
Transaction encoder as a function of the record. -/
theorem transaction_childNames (t : Transaction) :
    ((Transaction.marshalXML t).1).childNames =
      (if t.Action != "" then ["action"] else []) ++ ["amount_in_cents"] ++
      (if t.TaxInCents != 0 then ["tax_in_cents"] else []) ++ ["currency"] ++
      (if t.Status != "" then ["status"] else []) ++
      (if t.Description != "" then ["description"] else []) ++
      (if t.ProductCode != "" then ["product_code"] else []) ++
      (if t.PaymentMethod != "" then ["payment_method"] else []) ++
      (if t.Reference != "" then ["reference"] else []) ++
      (if t.Source != "" then ["source"] else []) ++
      (if t.Recurring.Valid then ["recurring"] else []) ++
      (if t.Test then ["test"] else []) ++
      (if t.Voidable.Valid then ["voidable"] else []) ++
      (if t.Refundable.Valid then ["refundable"] else []) ++
      (if t.IPAddress != "" then ["ip_address"] else []) ++ ["account"] := by
  simp only [Transaction.marshalXML, XmlNode.childNames, List.filterMap_append,
    names_emitIf, names_nullBoolField, names_textElem, textElem,
    Account.marshalXML, List.filterMap_cons, List.filterMap_nil, XmlNode.nodeName]

/-! ## Claim theorems -/

/-- C1 (code bug in the dispatcher): reactivated_account_notification is
one of the registered named notification constants, yet Parse on a
minimal well-formed payload with that outer tag returns the
unknown-notification error instead of the reactivated-account variant:
the switch has no case for the ReactivedAccount constant (its
reactivated-account case is keyed by the ReactivatedSubscription
constant instead). -/
theorem c1_reactivated_account_not_dispatched :
    Webhooks.ReactivedAccount ∈ Webhooks.registeredNames ∧
    Webhooks.Parse (.elem Webhooks.ReactivedAccount [] []) =
      .error (.unknownNotification { name := "reactivated_account_notification" }) := by
  exact ⟨by decide, rfl⟩

/-- C2 counterexample: on the malformed integer text abc, the NullInt
decoder reports no error (the claim says malformed content must surface
an error). -/
theorem c2_malformed_int_no_error :
    parseGoInt "abc" = none ∧
    (NullInt.unmarshalXML { Int := 0, Valid := false } "abc").2 = none := by
  exact ⟨rfl, rfl⟩

/-- C2 amended: NullInt decoding never returns an error; on well-formed
numeric content it produces Valid true with the parsed value, and on
malformed content it leaves the receiver unchanged and still returns the
nil error. -/
theorem c2_null_int_decode_total (n : NullInt) (body : String) :
    (NullInt.unmarshalXML n body).2 = none ∧
    (∀ v : Int, parseGoInt body = some v →
      (NullInt.unmarshalXML n body).1 = { Int := v, Valid := true }) ∧
    (parseGoInt body = none → (NullInt.unmarshalXML n body).1 = n) := by
  cases hp : parseGoInt body <;> simp [NullInt.unmarshalXML, hp]

/-- C2 witness: the amended theorem evaluated at the well-formed text 42
and at malformed text. -/
theorem c2_null_int_decode_total_witness :
    (NullInt.unmarshalXML { Int := 0, Valid := false } "42").1 =
      { Int := 42, Valid := true } ∧
    (NullInt.unmarshalXML { Int := 0, Valid := false } "42").2 = none := by
  exact ⟨(c2_null_int_decode_total { Int := 0, Valid := false } "42").2.1 42 (by decide),
    (c2_null_int_decode_total { Int := 0, Valid := false } "42").1⟩

/-- C3: the NullInt encoder emits the element exactly when Valid is
true, with the decimal text of the value, an explicit zero included, and
emits nothing when Valid is false regardless of the stored int. -/
theorem c3_null_int_marshal_iff_valid (n : NullInt) (name : String) :
    (NullInt.marshalXML n name).1 =
      (if n.Valid then some (textElem name (toString n.Int)) else none) ∧
    ((NullInt.marshalXML n name).1).isSome = n.Valid := by
  refine ⟨rfl, ?_⟩
  cases hv : n.Valid <;> simp [NullInt.marshalXML, hv]

/-- C4: encoding an explicit zero always emits the element with text 0;
decoding a subscription payload carrying net_terms 0 yields the set zero
value, and decoding a payload without the element leaves it unset. -/
theorem c4_explicit_zero_round_trip :
    (∀ name : String,
      NullInt.marshalXML (NewInt 0) name = (some (textElem name "0"), none)) ∧
    (Subscription.unmarshalXML
        (.elem "subscription" [] [.elem "net_terms" [⟨"type", "integer"⟩] [.text "0"]])).map
        Subscription.NetTerms = .ok { Int := 0, Valid := true } ∧
    (Subscription.unmarshalXML (.elem "subscription" [] [])).map Subscription.NetTerms =
      .ok { Int := 0, Valid := false } := by
  exact ⟨fun name => rfl, rfl, rfl⟩

/-- C8: encoding never fails: the Transaction encoder and the NullInt
encoder return the nil error on every in-memory value. -/
theorem c8_encode_never_fails :
    (∀ t : Transaction, (Transaction.marshalXML t).2 = none) ∧
    (∀ (n : NullInt) (name : String), (NullInt.marshalXML n name).2 = none) := by
  exact ⟨fun t => rfl, fun n name => rfl⟩

theorem mem_ite_singleton {x n : String} {c : Bool} :
    x ∈ (if c then [n] else ([] : List String)) ↔ c = true ∧ x = n := by
  cases c <;> simp

/-- C5: dispatching any well-formed payload whose outer tag is not one
of the registered event names returns a nil result together with the
typed unknown-notification error whose Name is exactly the raw tag; the
dispatcher is a total function, so it never crashes. -/
theorem c5_unknown_tag_error (payload : XmlNode)
    (h : payload.localName ∉ Webhooks.registeredNames) :
    Webhooks.Parse payload =
      .error (.unknownNotification { name := payload.localName }) ∧
    Webhooks.ErrUnknownNotification.Name { name := payload.localName } =
      payload.localName := by
  have h' : ∀ c ∈ Webhooks.registeredNames, payload.localName ≠ c :=
    fun c hc e => h (e ▸ hc)
  have hroute : Webhooks.route payload.localName = none := by
    unfold Webhooks.route
    rw [if_neg (h' Webhooks.NewAccount (by decide)),
        if_neg (h' Webhooks.UpdatedAccount (by decide)),
        if_neg (h' Webhooks.ReactivatedSubscription (by decide)),
        if_neg (h' Webhooks.BillingInfoUpdated (by decide)),
        if_neg (h' Webhooks.NewSubscription (by decide)),
        if_neg (h' Webhooks.UpdatedSubscription (by decide)),
        if_neg (h' Webhooks.RenewedSubscription (by decide)),
        if_neg (h' Webhooks.ExpiredSubscription (by decide)),
        if_neg (h' Webhooks.CanceledSubscription (by decide)),
        if_neg (h' Webhooks.NewInvoice (by decide)),
        if_neg (h' Webhooks.PastDueInvoice (by decide)),
        if_neg (h' Webhooks.ProcessingInvoice (by decide)),
        if_neg (h' Webhooks.ClosedInvoice (by decide)),
        if_neg (h' Webhooks.SuccessfulPayment (by decide)),
        if_neg (h' Webhooks.FailedPayment (by decide)),
        if_neg (h' Webhooks.VoidPayment (by decide)),
        if_neg (h' Webhooks.SuccessfulRefund (by decide)),
        if_neg (h' Webhooks.NewShippingAddress (by decide)),
        if_neg (h' Webhooks.UpdatedShippingAddress (by decide)),
        if_neg (h' Webhooks.DeletedShippingAddress (by decide)),
        if_neg (h' Webhooks.NewDunningEvent (by decide))]
  exact ⟨by simp [Webhooks.Parse, hroute], rfl⟩

/-- C5 witness: the theorem applied to the totally unrecognized event
tag of the spec. -/
theorem c5_unknown_tag_error_witness :
    Webhooks.Parse (.elem "totally_unrecognized_event" [] []) =
      .error (.unknownNotification { name := "totally_unrecognized_event" }) ∧
    Webhooks.ErrUnknownNotification.Name { name := "totally_unrecognized_event" } =
      "totally_unrecognized_event" :=
  c5_unknown_tag_error (.elem "totally_unrecognized_event" [] []) (by decide)

/-- C6: encoding a NewSubscription holding only the gold plan code, the
account with code 123 and an empty currency produces exactly the
expected bytes: declared element order, the empty currency element
present, every other optional field omitted. -/
theorem c6_gold_subscription_encoding :
    (NewSubscription.marshalXML
      { PlanCode := "gold", Account := { Code := "123", BillingInfo := none },
        SubscriptionAddOns := none, CouponCode := "", UnitAmountInCents := 0,
        Currency := "", Quantity := 0, TrialEndsAt := { Time := none },
        StartsAt := { Time := none }, TotalBillingCycles := 0,
        FirstRenewalDate := { Time := none }, CollectionMethod := "",
        NetTerms := { Int := 0, Valid := false }, PONumber := "", Bulk := false,
        TermsAndConditions := "", CustomerNotes := "", VATReverseChargeNotes := "",
        BankAccountAuthorizedAt := { Time := none } }).render =
    "<subscription><plan_code>gold</plan_code><account><account_code>123</account_code></account><currency></currency></subscription>" := by
  rfl

/-- C7: the fields populated from href link elements on decode are never
re-emitted on encode: the Subscription encoder is unchanged by
AccountCode and InvoiceNumber, and the Transaction encoder writes the
account as a flat account element and never a details element. -/
theorem c7_link_fields_never_reencoded :
    (∀ (s : Subscription) (a : String) (i : Int),
      Subscription.marshalXML { s with AccountCode := a, InvoiceNumber := i } =
        Subscription.marshalXML s) ∧
    (∀ t : Transaction,
      "account" ∈ ((Transaction.marshalXML t).1).childNames ∧
      "details" ∉ ((Transaction.marshalXML t).1).childNames) := by
  refine ⟨fun s a i => rfl, fun t => ⟨?_, ?_⟩⟩
  · rw [transaction_childNames]
    simp
  · rw [transaction_childNames]
    simp [List.mem_append, mem_ite_singleton]

/-- C9: the transaction comparator returns true exactly when the first
timestamp is strictly before the second, provided both are set; with an
unset timestamp on either side the body dereferences a nil pointer,
modelled here as the none result, with no internal guard. -/
theorem c9_transactions_less (s : Transactions) (i j : Nat) (a b : Transaction)
    (hi : s[i]? = some a) (hj : s[j]? = some b) :
    (∀ ta tb : GoTime, a.CreatedAt.Time = some ta → b.CreatedAt.Time = some tb →
      (Transactions.Less s i j = some true ↔ GoTime.Before ta tb)) ∧
    ((a.CreatedAt.Time = none ∨ b.CreatedAt.Time = none) →
      Transactions.Less s i j = none) := by
  constructor
  · intro ta tb hta htb
    simp [Transactions.Less, hi, hj, hta, htb, GoTime.Before]
  · intro h
    rcases h with h | h
    · simp [Transactions.Less, hi, hj, h]
    · cases ha : a.CreatedAt.Time <;> simp [Transactions.Less, hi, hj, h, ha]

/-- exTransaction is a transaction value with the given timestamp and
every other field zero, used to evaluate the comparator. -/
def exTransaction (t : Option GoTime) : Transaction :=
  { InvoiceNumber := 0, UUID := "", Action := "", AmountInCents := 0,
    TaxInCents := 0, Currency := "", Status := "", Description := "",
    ProductCode := "", PaymentMethod := "", Reference := "", Source := "",
    Recurring := { Valid := false, Bool := false }, Test := false,
    Voidable := { Valid := false, Bool := false },
    Refundable := { Valid := false, Bool := false }, IPAddress := "",
    TransactionError := none, CVVResult := TransactionResult.zero,
    AVSResult := TransactionResult.zero, AVSResultStreet := "",
    AVSResultPostal := "", CreatedAt := { Time := t },
    Account := { Code := "", BillingInfo := none } }

/-- C9 witness: the comparator theorem evaluated on a concrete slice
with two set timestamps and one unset timestamp. -/
theorem c9_transactions_less_witness :
    (Transactions.Less
        [exTransaction (some 1), exTransaction (some 2), exTransaction none] 0 1 =
        some true ↔ GoTime.Before (1 : GoTime) 2) ∧
    Transactions.Less
        [exTransaction (some 1), exTransaction (some 2), exTransaction none] 0 2 =
      none := by
  exact ⟨(c9_transactions_less _ 0 1 (exTransaction (some 1)) (exTransaction (some 2))
      rfl rfl).1 1 2 rfl rfl,
    (c9_transactions_less _ 0 2 (exTransaction (some 1)) (exTransaction none)
      rfl rfl).2 (Or.inr rfl)⟩

/-- C10: MakeUpdate copies exactly NetTerms and a pointer to the add-on
slice into an otherwise zero update record, so encoding an unmodified
result emits at most the net_terms and subscription_add_ons elements. -/
theorem c10_make_update_frame (s : Subscription) :
    Subscription.MakeUpdate s =
      { Timeframe := "", PlanCode := "", Quantity := 0, UnitAmountInCents := 0,
        CollectionMethod := "", NetTerms := s.NetTerms, PONumber := "",
        SubscriptionAddOns := some s.SubscriptionAddOns } ∧
    (UpdateSubscription.marshalXML (Subscription.MakeUpdate s)).childNames ⊆
      ["net_terms", "subscription_add_ons"] := by
  refine ⟨rfl, ?_⟩
  have hnames : (UpdateSubscription.marshalXML (Subscription.MakeUpdate s)).childNames =
      (if s.NetTerms.Valid then ["net_terms"] else []) ++
      (if s.SubscriptionAddOns.isEmpty then [] else ["subscription_add_ons"]) := by
    simp only [UpdateSubscription.marshalXML, Subscription.MakeUpdate,
      XmlNode.childNames, List.filterMap_append, names_emitIf, names_nullIntField,
      names_addOnsWrapper, textElem]
    simp
  rw [hnames]
  cases hv : s.NetTerms.Valid <;> cases hl : s.SubscriptionAddOns.isEmpty <;>
    simp [hv, hl]
